import Mathlib

/-
Verification development for `track_open_prs.py`: a shallow embedding of the
script's pull-request aggregation pipeline (paginated fetch, reviewer
enrichment, age classification, report rendering, Quip publishing), together
with theorems settling the specification's claims about it.

Modelling conventions:
* Machine time is epoch seconds as `Int`; `datetime.now()` reads are modelled
  as successive samples of an explicit clock stream `Nat → Int`, one index per
  call, threaded in program order.
* ISO-8601 timestamps (`%Y-%m-%dT%H:%M:%SZ`) stay `String`s exactly where the
  script keeps them as strings (the script compares `closed_at` strings
  lexicographically); `parseISO`/`strftimeISO` mirror `strptime`/`strftime`
  via the standard civil-calendar conversion.
* HTTP exchanges are modelled by their observable pieces: a status code plus
  the decoded JSON payload the script actually reads.  Raised exceptions
  (`requests.HTTPError`, `sys.exit`) become `Except`/explicit trace events.
* Side effects of `main` are modelled as an event trace: network requests,
  stdout writes, stderr writes, process exit.
-/

namespace TrackOpenPrs

/-! ## Time: epoch seconds and the `%Y-%m-%dT%H:%M:%SZ` format -/

/-- Value of a list of decimal digit characters (as used by `strptime`). -/
def natOfDigits (l : List Char) : Nat :=
  l.foldl (fun a c => a * 10 + (c.toNat - 48)) 0

/-- Days since 1970-01-01 of a civil date (Howard Hinnant's `days_from_civil`,
the conversion underlying `datetime`). -/
def daysFromCivil (y0 : Int) (m d : Nat) : Int :=
  let y : Int := if m ≤ 2 then y0 - 1 else y0
  let era : Int := Int.ediv (if 0 ≤ y then y else y - 399) 400
  let yoe : Int := y - era * 400
  let mp : Int := if 2 < m then (m : Int) - 3 else (m : Int) + 9
  let doy : Int := Int.ediv (153 * mp + 2) 5 + (d : Int) - 1
  let doe : Int := yoe * 365 + Int.ediv yoe 4 - Int.ediv yoe 100 + doy
  era * 146097 + doe - 719468

/-- Civil date from days since 1970-01-01 (`civil_from_days`). -/
def civilFromDays (z0 : Int) : Int × Nat × Nat :=
  let z := z0 + 719468
  let era : Int := Int.ediv z 146097
  let doe : Nat := (z - era * 146097).toNat
  let yoe : Nat := (doe - doe / 1460 + doe / 36524 - doe / 146096) / 365
  let y : Int := (yoe : Int) + era * 400
  let doy : Nat := doe - (365 * yoe + yoe / 4 - yoe / 100)
  let mp : Nat := (5 * doy + 2) / 153
  let d : Nat := doy - (153 * mp + 2) / 5 + 1
  let m : Nat := if mp < 10 then mp + 3 else mp - 9
  (if m ≤ 2 then y + 1 else y, m, d)

/-- Two-digit zero padding, as `strftime` does for `%m`, `%d`, `%H`, `%M`, `%S`. -/
def pad2 (n : Nat) : String :=
  if n < 10 then "0" ++ toString n else toString n

/-- Four-digit zero padding for `%Y`. -/
def pad4 (n : Int) : String :=
  if 0 ≤ n ∧ n < 10000 then (toString (n.toNat + 10000)).drop 1 else toString n

/-- The `strftime("%Y-%m-%dT%H:%M:%SZ")` rendering of an epoch-seconds timestamp. -/
def strftimeISO (t : Int) : String :=
  let days := Int.ediv t 86400
  let sod := (Int.emod t 86400).toNat
  let c := civilFromDays days
  let hh := sod / 3600
  let mm := sod % 3600 / 60
  let ss := sod % 60
  pad4 c.1 ++ "-" ++ pad2 c.2.1 ++ "-" ++ pad2 c.2.2 ++ "T" ++
    pad2 hh ++ ":" ++ pad2 mm ++ ":" ++ pad2 ss ++ "Z"

/-- Reading `strptime(s, "%Y-%m-%dT%H:%M:%SZ")` as epoch seconds (fields are read at
their fixed positions in the format). -/
def parseISO (s : String) : Int :=
  let c := s.toList
  let y := natOfDigits (c.take 4)
  let mo := natOfDigits ((c.drop 5).take 2)
  let d := natOfDigits ((c.drop 8).take 2)
  let hh := natOfDigits ((c.drop 11).take 2)
  let mi := natOfDigits ((c.drop 14).take 2)
  let ss := natOfDigits ((c.drop 17).take 2)
  daysFromCivil (y : Int) mo d * 86400 + ((hh * 3600 + mi * 60 + ss : Nat) : Int)

/-- The `strftime('%Y-%m-%d')` rendering of an epoch-seconds timestamp (the report title
date, line 192 of the script). -/
def dateStr (t : Int) : String :=
  (strftimeISO t).take 10

/-! ## Lexicographic string order (Python string comparison) -/

/-- Lexicographic strict order on character lists by code point, as Python
compares strings. -/
def listLtChars : List Char → List Char → Bool
  | [], [] => false
  | [], _ :: _ => true
  | _ :: _, [] => false
  | a :: as, b :: bs =>
    if a < b then true else if b < a then false else listLtChars as bs

/-- Python `a < b` on strings. -/
def strLt (a b : String) : Bool :=
  listLtChars a.data b.data

/-- Python `a <= b` on strings (total order, so the negation of `b < a`). -/
def strLe (a b : String) : Bool :=
  !(strLt b a)

/-- Insertion into a `le`-sorted list. -/
def insertLe {α : Type} (le : α → α → Bool) (a : α) : List α → List α
  | [] => [a]
  | b :: bs => if le a b then a :: b :: bs else b :: insertLe le a bs

/-- Sorting by a total order `le`.  Python's `sorted`/`list.sort` are modelled
by insertion sort: for the antisymmetric total orders used here (string and
string-tuple lexicographic order) the sorted permutation is unique, so the
algorithm does not matter. -/
def sortLe {α : Type} (le : α → α → Bool) : List α → List α
  | [] => []
  | a :: as => insertLe le a (sortLe le as)

/-! ## Configuration constants (the script's env-var defaults) -/

def REPO_OWNER : String := "awslabs"

def REPO_NAME : String := "aws-athena-query-federation"

def GITHUB_API_URL : String :=
  "https://api.github.com/repos/" ++ REPO_OWNER ++ "/" ++ REPO_NAME ++ "/pulls"

def QUIP_BASE_URL : String := "https://platform.quip.com"

/-! ## Data model: PR records and HTTP page responses -/

/-- The fields of a pull-request JSON record that the script reads. -/
structure PR where
  number : Nat
  title : String
  html_url : String
  created_at : String
  updated_at : String
  closed_at : Option String
deriving Repr, DecidableEq

/-- One response of the paginated PR-list endpoint: HTTP status and the
decoded item list. -/
structure PageResponse where
  status : Nat
  body : List PR
deriving Repr, DecidableEq

/-! ## Effect trace events -/

/-- Observable effects of a run: HTTP requests, stdout writes (plain prints
and `csv.writer` rows), stderr writes, and process exit. -/
inductive Ev where
  | netGet (url : String)
  | netPost (url : String)
  | out (s : String)
  | outRow (fields : List String)
  | err (s : String)
  | exit (code : Nat)
deriving Repr, DecidableEq

/-! ## Paginated fetcher (`fetch_prs`, lines 26-57) -/

/-- Line 48: `if pr["closed_at"] and pr["closed_at"] >= since_str` — keep the
item; Python string `>=` is lexicographic and an empty/absent `closed_at` is
falsy. -/
def keepClosed (since_str : String) (pr : PR) : Bool :=
  match pr.closed_at with
  | some s => decide (s ≠ "") && strLe since_str s
  | none => false

/-- The inner `for pr in data` loop of the closed-state fetch (lines 47-51):
append kept items to the accumulator; the first rejected item makes the whole
fetch return (`Bool` result component: early return was taken). -/
def scanClosedPage (since_str : String) : List PR → List PR → List PR × Bool
  | [], acc => (acc, false)
  | pr :: rest, acc =>
    if keepClosed since_str pr then scanClosedPage since_str rest (acc ++ [pr])
    else (acc, true)

/-- The `while True` page loop of `fetch_prs` (lines 37-57), over the list of
page responses the server returns for pages 1, 2, ...; pages beyond the list
are empty with status 200, which breaks the loop.  Produces the emitted
events (one GET per requested page, plus the progress prints of lines 29/56)
and the result: the accumulated PRs, or the status of the first failing page
(line 41 raises `requests.HTTPError`). -/
def fetchGo (state since_str : String) :
    List PageResponse → List PR → List Ev × Except Nat (List PR)
  | [], acc => ([Ev.netGet GITHUB_API_URL], Except.ok acc)
  | r :: rest, acc =>
    if r.status ≠ 200 then ([Ev.netGet GITHUB_API_URL], Except.error r.status)
    else if r.body.isEmpty then ([Ev.netGet GITHUB_API_URL], Except.ok acc)
    else if state = "closed" then
      let sc := scanClosedPage since_str r.body acc
      if sc.2 then ([Ev.netGet GITHUB_API_URL], Except.ok sc.1)
      else
        let n := sc.1.length
        let fr := fetchGo state since_str rest sc.1
        (Ev.netGet GITHUB_API_URL ::
           Ev.out ("Fetched " ++ toString n ++ " " ++ state ++ " PRs...") :: fr.1,
         fr.2)
    else
      let acc' := acc ++ r.body
      let n := acc'.length
      let fr := fetchGo state since_str rest acc'
      (Ev.netGet GITHUB_API_URL ::
         Ev.out ("Fetched " ++ toString n ++ " " ++ state ++ " PRs...") :: fr.1,
       fr.2)

/-- The call `fetch_prs(state, since_date)` with its events.  For the closed state the
cutoff string is `strftime` of `since_date`, which defaults to seven days
before the `datetime.now()` sample `now` (lines 31-35); for other states no
cutoff is computed. -/
def fetch_prs_tr (state : String) (since_date : Option Int) (now : Int)
    (pages : List PageResponse) : List Ev × Except Nat (List PR) :=
  let since_str :=
    if state = "closed" then strftimeISO (since_date.getD (now - 7 * 86400)) else ""
  let r := fetchGo state since_str pages []
  (Ev.out ("Fetching " ++ state ++ " PRs...") :: r.1, r.2)

/-- The value returned by `fetch_prs` (its effects projected away). -/
def fetch_prs (state : String) (since_date : Option Int) (now : Int)
    (pages : List PageResponse) : Except Nat (List PR) :=
  (fetch_prs_tr state since_date now pages).2

/-- The items the page loop can see: all items of the pages up to (excluding)
the first empty page, in page order. -/
def pagesItems (pages : List PageResponse) : List PR :=
  ((pages.takeWhile (fun r => !r.body.isEmpty)).map (fun r => r.body)).flatten

/-! ## Reviewer enrichment (`get_reviewers`, lines 74-92) and comments -/

/-- A user object (`user["login"]` is the only field read). -/
structure User where
  login : String
deriving Repr, DecidableEq

/-- A team object (`team["name"]` is the only field read). -/
structure Team where
  name : String
deriving Repr, DecidableEq

/-- A submitted review: `review["user"]` may be null, `review["state"]` is
e.g. `"APPROVED"`. -/
structure Review where
  user : Option User
  state : String
deriving Repr, DecidableEq

/-- Response of the `requested_reviewers` endpoint. -/
structure RequestedResponse where
  status : Nat
  users : List User
  teams : List Team
deriving Repr, DecidableEq

/-- Response of the `reviews` endpoint. -/
structure ReviewsResponse where
  status : Nat
  reviews : List Review
deriving Repr, DecidableEq

/-- An issue comment (`updated_at` is the only field read). -/
structure Comment where
  updated_at : String
deriving Repr, DecidableEq

/-- Response of the issue-comments endpoint. -/
structure CommentsResponse where
  status : Nat
  comments : List Comment
deriving Repr, DecidableEq

/-- The Python set `all_reviewers` built by `get_reviewers` (lines 75-90):
requested users and teams contribute their bare login/name (only on a 200
response), submitted reviews with a non-null user contribute
`"login STATE"` (only on a 200 response); a set holds each string once. -/
def reviewerSet (req : RequestedResponse) (rev : ReviewsResponse) : List String :=
  let fromRequested :=
    if req.status = 200 then
      req.users.map (fun u => u.login) ++ req.teams.map (fun t => t.name)
    else []
  let fromReviews :=
    if rev.status = 200 then
      rev.reviews.filterMap (fun r => r.user.map (fun u => u.login ++ " " ++ r.state))
    else []
  (fromRequested ++ fromReviews).dedup

/-- Line 92: `", ".join(sorted(all_reviewers)) if all_reviewers else "None"`. -/
def get_reviewers (req : RequestedResponse) (rev : ReviewsResponse) : String :=
  let l := sortLe strLe (reviewerSet req rev)
  if l.isEmpty then "None" else String.intercalate ", " l

/-- Function `get_last_comment_date` (lines 65-72): the newest comment's `updated_at`
on a 200 response with a non-empty list, otherwise `None`. -/
def get_last_comment_date (resp : CommentsResponse) : Option String :=
  if resp.status = 200 then
    match resp.comments with
    | [] => none
    | c :: _ => some c.updated_at
  else none

/-- The reviewer identity named by a set entry: the part before the first
space (a bare requested login, or the login of a `"login STATE"` entry). -/
def identityOf (s : String) : String :=
  String.mk (s.data.takeWhile (fun c => c ≠ ' '))

/-! ## Age classification (`human_age` lines 94-100, `get_days_old` 102-105) -/

/-- Function `human_age(created_at)` with the `datetime.now()` sample it takes passed
explicitly.  `timedelta.days` floors; `timedelta.seconds` is the nonnegative
remainder below one day. -/
def human_age (now : Int) (created_at : String) : String :=
  let created := parseISO created_at
  let delta := now - created
  let days := Int.ediv delta 86400
  let hours := Int.ediv (Int.emod delta 86400) 3600
  toString days ++ "d " ++ toString hours ++ "h"

/-- Function `get_days_old(created_at)` with its `datetime.now()` sample explicit. -/
def get_days_old (now : Int) (created_at : String) : Int :=
  Int.ediv (now - parseISO created_at) 86400

/-! ## The spec's derived review metrics (absent from the script) -/

/-- Modelled from the spec: the approval count of a PR — the number of
submitted reviews whose status is approved (`"APPROVED"` in the source API's
encoding); the script itself computes no such count. -/
def approvalCount (reviews : List Review) : Nat :=
  (reviews.filter (fun r => r.state = "APPROVED")).length

/-- Modelled from the spec: the readiness glyph of an approval count —
🔴 for zero approvals, 🟡 for exactly one, 🟢 for two or more; the script
renders no such glyph. -/
def readinessGlyph (approvals : Nat) : Char :=
  if approvals = 0 then '🔴' else if approvals = 1 then '🟡' else '🟢'

/-! ## The external world of one run -/

/-- Response of the Quip publish endpoint: status, the document link read
from the JSON on success, and the error body text. -/
structure QuipResp where
  status : Nat
  link : String
  text : String

/-- Everything outside the process that a run observes: the PR-list pages for
each state, the per-PR-number enrichment responses, the clock stream sampled
by successive `datetime.now()` calls, and the Quip API response. -/
structure World where
  openPages : List PageResponse
  closedPages : List PageResponse
  requested : Nat → RequestedResponse
  reviews : Nat → ReviewsResponse
  comments : Nat → CommentsResponse
  clock : Nat → Int
  quip : QuipResp

/-! ## Report rendering (lines 167-223) -/

/-- A `(created_at, title, html_url, reviewers)` tuple of the `old_prs` list
(line 165). -/
abbrev OldTup := String × String × String × String

/-- The markdown table row of one open PR (line 201). -/
def mdOpenRow (pr : PR) (age reviewers : String) : String :=
  "| [" ++ pr.title ++ "](" ++ pr.html_url ++ ") | " ++ age ++ " | " ++
    reviewers ++ " |"

/-- The open-PR table loop (lines 198-201): each iteration samples the clock
once (inside `human_age`) and re-queries both reviewer endpoints. -/
def openRowsLoop (w : World) (k : Nat) : List PR → List String
  | [] => []
  | pr :: rest =>
    mdOpenRow pr (human_age (w.clock k) pr.created_at)
        (get_reviewers (w.requested pr.number) (w.reviews pr.number)) ::
      openRowsLoop w (k + 1) rest

/-- The markdown row of one recently-closed PR (line 212). -/
def mdClosedRow (pr : PR) (daysToClose : Int) (reviewers : String) : String :=
  "| [" ++ pr.title ++ "](" ++ pr.html_url ++ ") | " ++ toString daysToClose ++
    " | " ++ reviewers ++ " |"

/-- The closed-PR table loop (lines 209-212): one clock sample per row
(inside `get_days_old`) plus the two reviewer lookups. -/
def closedRowsLoop (w : World) (k : Nat) : List PR → List String
  | [] => []
  | pr :: rest =>
    mdClosedRow pr (get_days_old (w.clock k) pr.created_at)
        (get_reviewers (w.requested pr.number) (w.reviews pr.number)) ::
      closedRowsLoop w (k + 1) rest

/-- Python tuple `<=` on the 4-tuples of `old_prs`: lexicographic by
component. -/
def oldTupLe (a b : OldTup) : Bool :=
  if a.1 ≠ b.1 then strLt a.1 b.1
  else if a.2.1 ≠ b.2.1 then strLt a.2.1 b.2.1
  else if a.2.2.1 ≠ b.2.2.1 then strLt a.2.2.1 b.2.2.1
  else strLe a.2.2.2 b.2.2.2

/-- Sorting `old_prs.sort()` (line 220): ascending lexicographic tuple order. -/
def oldSort (l : List OldTup) : List OldTup :=
  sortLe oldTupLe l

/-- One row of the old-PR table (line 223; note the source omits the closing
cell delimiter).  Each iteration samples the clock once via `get_days_old`. -/
def mdOldRow (daysOld : Int) (tup : OldTup) : String :=
  "| " ++ toString daysOld ++ " | [" ++ tup.2.1 ++ "](" ++ tup.2.2.1 ++ ") | " ++
    tup.2.2.2

/-- The old-PR table loop (lines 221-223). -/
def oldRowsLoop (w : World) (k : Nat) : List OldTup → List String
  | [] => []
  | t :: rest =>
    mdOldRow (get_days_old (w.clock k) t.1) t :: oldRowsLoop w (k + 1) rest

/-- The markdown report of lines 190-223, as the list of printed lines
(one list entry per `print` call; `k` is the index of the next unconsumed
`datetime.now()` sample, first spent on the title date of line 192). -/
def renderLines (w : World) (k : Nat) (op cl : List PR) (old : List OldTup)
    (un : Nat) : List String :=
  let nOpen := op.length
  let nOld := old.length
  "" ::
  ("# PR Summary " ++ dateStr (w.clock k)) ::
  ("**" ++ toString nOpen ++ " total PRs, " ++ toString un ++
     " no reviewers, " ++ toString nOld ++ " open >30 days**\n") ::
  "## All Open PRs" ::
  "| PR | Age | Reviewers |" ::
  "|---|---|---|" ::
  (openRowsLoop w (k + 1) op ++
   [""] ++
   (if cl.isEmpty then []
    else "\n## Recently Closed PRs" :: "| PR | Days to Close | Reviewers |" ::
      "|---|---|---|" :: closedRowsLoop w (k + 1 + op.length) cl) ++
   [""] ++
   (if old.isEmpty then []
    else "\n## Old (>30 days) PRs" :: "| Age | Title | Reviewers [State] |" ::
      "| --- | --- | --- |" ::
      oldRowsLoop w (k + 1 + op.length + cl.length) (oldSort old)))

/-- The bytes `print` produces from those lines (a newline after each). -/
def renderBytes (lines : List String) : String :=
  String.join (lines.map (fun l => l ++ "\n"))

/-- The open-PR sequence in the order the report renders it: the script's
CSV loop (line 175) and markdown table loop (line 198) both iterate
`open_prs` directly; no reordering is applied. -/
def renderOrderOpen (open_prs : List PR) : List PR :=
  open_prs

/-- One CSV row (lines 176-187): per iteration one clock sample
(`human_age`), the comments lookup, and both reviewer lookups. -/
def csvRowFields (w : World) (k : Nat) (pr : PR) : List String :=
  let age := human_age (w.clock k) pr.created_at
  let lastComment := get_last_comment_date (w.comments pr.number)
  let reviewers := get_reviewers (w.requested pr.number) (w.reviews pr.number)
  [pr.html_url, pr.title, pr.created_at, pr.updated_at,
   lastComment.getD "No comments", age, reviewers]

/-- The CSV body loop (lines 175-187). -/
def csvRowsLoop (w : World) (k : Nat) : List PR → List (List String)
  | [] => []
  | pr :: rest => csvRowFields w k pr :: csvRowsLoop w (k + 1) rest

/-! ## Quip publishing (`publish_to_quip`, lines 107-146) -/

/-- The endpoint `publish_to_quip` posts to: edit an existing document when a
document id is configured, otherwise create a new one (lines 120-137). -/
def quipEndpoint (docId : Option String) : String :=
  QUIP_BASE_URL ++
    (if docId.isSome then "/1/threads/edit-document" else "/1/threads/new-document")

/-- The effect trace of `publish_to_quip`: with no token, the error print and
`sys.exit(1)` (lines 109-111); with a token, line 113 `print(QUIP_TOKEN)`
writes the token itself to stdout, then the POST is issued and the response
handled (lines 139-146). -/
def publish_to_quip_trace (quipToken : Option String) (docId : Option String)
    (resp : QuipResp) : List Ev :=
  match quipToken with
  | none =>
    [Ev.err "Error: QUIP_TOKEN environment variable is required for Quip publishing",
     Ev.exit 1]
  | some t =>
    Ev.out t ::
    Ev.netPost (quipEndpoint docId) ::
    (if resp.status = 200 ∨ resp.status = 201 then
       [Ev.err ("✓ Published to Quip: " ++ resp.link)]
     else
       [Ev.err ("Error publishing to Quip: " ++ toString resp.status ++ " " ++ resp.text),
        Ev.exit 1])

/-! ## `main` (lines 148-230) as an effect trace -/

/-- Command-line and environment configuration of a run. -/
structure Config where
  githubToken : Option String
  quipToken : Option String
  quipDocId : Option String
  csvFlag : Bool
  quipFlag : Bool
deriving Repr, DecidableEq

def requestedUrl (n : Nat) : String :=
  "https://api.github.com/repos/" ++ REPO_OWNER ++ "/" ++ REPO_NAME ++
    "/pulls/" ++ toString n ++ "/requested_reviewers"

def reviewsUrl (n : Nat) : String :=
  "https://api.github.com/repos/" ++ REPO_OWNER ++ "/" ++ REPO_NAME ++
    "/pulls/" ++ toString n ++ "/reviews"

def commentsUrl (n : Nat) : String :=
  "https://api.github.com/repos/" ++ REPO_OWNER ++ "/" ++ REPO_NAME ++
    "/issues/" ++ toString n ++ "/comments"

/-- The two GET requests `get_reviewers` makes, per PR of a list. -/
def classifyEvs : List PR → List Ev
  | [] => []
  | pr :: rest =>
    Ev.netGet (requestedUrl pr.number) :: Ev.netGet (reviewsUrl pr.number) ::
      classifyEvs rest

/-- Counter `unassigned_count` of the classification loop (lines 159-163). -/
def countUnassigned (w : World) : List PR → Nat
  | [] => 0
  | pr :: rest =>
    (if get_reviewers (w.requested pr.number) (w.reviews pr.number) = "None"
     then 1 else 0) + countUnassigned w rest

/-- List `old_prs` of the classification loop (lines 159-165); each iteration
samples the clock once inside `get_days_old`. -/
def computeOldPrs (w : World) : Nat → List PR → List OldTup
  | _, [] => []
  | k, pr :: rest =>
    let reviewers := get_reviewers (w.requested pr.number) (w.reviews pr.number)
    let tail := computeOldPrs w (k + 1) rest
    if get_days_old (w.clock k) pr.created_at > 30 then
      (pr.created_at, pr.title, pr.html_url, reviewers) :: tail
    else tail

def csvHeaders : List String :=
  ["PR Link", "Title", "CreatedDate", "LastModifiedDate", "LastCommentDate",
   "Age", "Reviewers"]

/-- The network requests made per PR inside the CSV loop, interleaved with
its row writes (lines 175-187). -/
def csvEvs (w : World) (k : Nat) : List PR → List Ev
  | [] => []
  | pr :: rest =>
    Ev.netGet (commentsUrl pr.number) ::
    Ev.netGet (requestedUrl pr.number) ::
    Ev.netGet (reviewsUrl pr.number) ::
    Ev.outRow (csvRowFields w k pr) ::
    csvEvs w (k + 1) rest

/-- The CSV branch of `main` (lines 167-187): summary to stderr, header row,
then the body loop. -/
def csvTrace (w : World) (k : Nat) (open_prs : List PR) (un nOld : Nat) :
    List Ev :=
  Ev.err ("SUMMARY: " ++ toString open_prs.length ++ " total PRs, " ++
      toString un ++ " no reviewers, " ++ toString nOld ++ " open >30 days") ::
  Ev.outRow csvHeaders ::
  csvEvs w k open_prs

/-- The markdown branch of `main` (lines 188-230): the table loops re-query
the reviewer endpoints per row while the lines are written (to stdout, or to
the in-memory buffer handed to `publish_to_quip` when the quip flag is set;
the network lookups the rendering performs are collected before the buffered
lines in this trace). -/
def mdTrace (cfg : Config) (w : World) (k : Nat) (op cl : List PR)
    (old : List OldTup) (un : Nat) : List Ev :=
  let lines := renderLines w k op cl old un
  classifyEvs op ++ classifyEvs cl ++
    (if cfg.quipFlag then
       publish_to_quip_trace cfg.quipToken cfg.quipDocId w.quip
     else lines.map Ev.out)

/-- The effect trace of `main` (lines 148-230): fetch open then closed PRs
(an uncaught `HTTPError` aborts the interpreter with a stderr traceback and
exit status 1), run the classification loop, then the selected output branch.
Clock samples: index 0 is taken by the closed fetch's seven-day default,
indices 1.. by the classification loop, the rest by the output branch. -/
def mainTrace (cfg : Config) (w : World) : List Ev :=
  let fo := fetch_prs_tr "open" none 0 w.openPages
  match fo.2 with
  | Except.error _ => fo.1 ++ [Ev.err "Traceback", Ev.exit 1]
  | Except.ok open_prs =>
    let fc := fetch_prs_tr "closed" none (w.clock 0) w.closedPages
    match fc.2 with
    | Except.error _ => fo.1 ++ fc.1 ++ [Ev.err "Traceback", Ev.exit 1]
    | Except.ok closed_prs =>
      let un := countUnassigned w open_prs
      let old := computeOldPrs w 1 open_prs
      let k := 1 + open_prs.length
      fo.1 ++ fc.1 ++ classifyEvs open_prs ++
        (if cfg.csvFlag then csvTrace w k open_prs un old.length
         else mdTrace cfg w k open_prs closed_prs old un)

/-- The whole program: the module-level `GITHUB_TOKEN` check (lines 16-18)
runs before anything else; with a token, `main` runs. -/
def programTrace (cfg : Config) (w : World) : List Ev :=
  match cfg.githubToken with
  | none => [Ev.err "Error: GITHUB_TOKEN environment variable is required", Ev.exit 1]
  | some _ => mainTrace cfg w

/-- Whether an event is a network request. -/
def isNet : Ev → Bool
  | Ev.netGet _ => true
  | Ev.netPost _ => true
  | _ => false

/-- The stdout strings of a trace, in order. -/
def outsOf (tr : List Ev) : List String :=
  tr.filterMap (fun e => match e with | Ev.out s => some s | _ => none)

/-! ## Helper lemmas about the fetch loop -/

theorem scanClosedPage_eq (s : String) (items : List PR) (acc : List PR) :
    scanClosedPage s items acc =
      (acc ++ items.takeWhile (keepClosed s), !items.all (keepClosed s)) := by
  induction items generalizing acc with
  | nil => simp [scanClosedPage]
  | cons pr rest ih =>
    by_cases h : keepClosed s pr
    · simp [scanClosedPage, h, ih, List.takeWhile_cons]
    · simp [scanClosedPage, h, List.takeWhile_cons]

theorem takeWhileAppendOfAll {α : Type} (p : α → Bool) (l₁ l₂ : List α)
    (h : ∀ a ∈ l₁, p a = true) :
    (l₁ ++ l₂).takeWhile p = l₁ ++ l₂.takeWhile p := by
  induction l₁ with
  | nil => simp
  | cons a l ih =>
    have ha : p a = true := h a (by simp)
    simp [List.takeWhile_cons, ha]
    exact ih (fun b hb => h b (by simp [hb]))

theorem takeWhileAppendOfNotAll {α : Type} (p : α → Bool) (l₁ l₂ : List α)
    (h : l₁.all p = false) :
    (l₁ ++ l₂).takeWhile p = l₁.takeWhile p := by
  induction l₁ with
  | nil => simp at h
  | cons a l ih =>
    by_cases ha : p a
    · have hl : l.all p = false := by simpa [List.all_cons, ha] using h
      simp [List.takeWhile_cons, ha, ih hl]
    · simp [List.takeWhile_cons, ha]

theorem fetchGo_closed_ok (s : String) (pages : List PageResponse)
    (acc : List PR) (h : ∀ r ∈ pages, r.status = 200) :
    (fetchGo "closed" s pages acc).2 =
      Except.ok (acc ++ (pagesItems pages).takeWhile (keepClosed s)) := by
  induction pages generalizing acc with
  | nil => simp [fetchGo, pagesItems]
  | cons r rest ih =>
    have hst : r.status = 200 := h r (by simp)
    by_cases hbody : r.body.isEmpty
    · simp [fetchGo, hst, hbody, pagesItems, List.takeWhile_cons]
    · by_cases hall : r.body.all (keepClosed s)
      · have htw : r.body.takeWhile (keepClosed s) = r.body :=
          List.takeWhile_eq_self_iff.2 (by simpa using List.all_eq_true.1 hall)
        have ih' := ih (acc ++ r.body) (fun p hp => h p (by simp [hp]))
        simp [fetchGo, hst, hbody, scanClosedPage_eq, hall, htw, ih',
          pagesItems, List.takeWhile_cons,
          takeWhileAppendOfAll (keepClosed s) r.body _
            (by simpa using List.all_eq_true.1 hall)]
      · have hall' : r.body.all (keepClosed s) = false := by
          simpa using hall
        simp [fetchGo, hst, hbody, scanClosedPage_eq, hall', pagesItems,
          List.takeWhile_cons,
          takeWhileAppendOfNotAll (keepClosed s) r.body _ hall']

/-! ## C1: closed-state fetch — cutoff filter with early termination -/

/-- C1: for a closed-state fetch over pages that all answer 200, `fetch_prs`
returns exactly the prefix of the scanned items whose closed timestamp passes
the `sinceDate` cutoff (`takeWhile`): the first failing item stops the whole
fetch, so neither the remainder of its page (`rest₀`) nor any later page
(`pages₂`) affects the result; and the cutoff defaults to seven days before
the current clock sample when no `sinceDate` is given. -/
theorem fetch_prs_closed_cutoff (s : String) (pages : List PageResponse)
    (good : List PR) (bad : PR) (rest₀ : List PR) (pages₂ : List PageResponse)
    (now : Int) (pages₃ : List PageResponse)
    (h200 : ∀ r ∈ pages, r.status = 200)
    (hgood : ∀ x ∈ good, keepClosed s x = true)
    (hbad : keepClosed s bad = false) :
    (fetchGo "closed" s pages []).2
        = Except.ok ((pagesItems pages).takeWhile (keepClosed s))
    ∧ (fetchGo "closed" s (⟨200, good ++ bad :: rest₀⟩ :: pages₂) []).2
        = Except.ok good
    ∧ fetch_prs "closed" none now pages₃
        = fetch_prs "closed" (some (now - 7 * 86400)) now pages₃ := by
  refine ⟨by simpa using fetchGo_closed_ok s pages [] h200, ?_, ?_⟩
  · have hne : (good ++ bad :: rest₀).isEmpty = false := by
      cases good <;> simp
    have hall : (good ++ bad :: rest₀).all (keepClosed s) = false := by
      simp [List.all_append, List.all_cons, hbad]
    have htw : (good ++ bad :: rest₀).takeWhile (keepClosed s) = good := by
      rw [takeWhileAppendOfAll (keepClosed s) good _ hgood]
      simp [List.takeWhile_cons, hbad]
    simp [fetchGo, hne, scanClosedPage_eq, hall, htw]
  · simp [fetch_prs, fetch_prs_tr]

def prK1 : PR := ⟨1, "k1", "url1", "2025-11-01T00:00:00Z", "2026-01-06T00:00:00Z",
  some "2026-01-05T00:00:00Z"⟩

def prK2 : PR := ⟨2, "k2", "url2", "2025-11-02T00:00:00Z", "2026-02-01T00:00:00Z",
  some "2026-02-01T00:00:00Z"⟩

def prStale : PR := ⟨3, "old", "url3", "2025-10-01T00:00:00Z", "2025-12-01T00:00:00Z",
  some "2025-12-01T00:00:00Z"⟩

def sinceW : String := "2026-01-01T00:00:00Z"

def pagesW : List PageResponse := [⟨200, [prK1]⟩, ⟨200, [prK2, prStale]⟩, ⟨200, []⟩]

/-- Witness for C1 at concrete pages: the cutoff keeps `prK1, prK2`, the stale
item ends the fetch, and the fetch ignores everything after it. -/
theorem fetch_prs_closed_cutoff_witness :
    (fetchGo "closed" sinceW pagesW []).2
        = Except.ok ((pagesItems pagesW).takeWhile (keepClosed sinceW))
    ∧ (fetchGo "closed" sinceW (⟨200, [prK1] ++ prStale :: [prK2]⟩ :: [⟨500, []⟩]) []).2
        = Except.ok [prK1]
    ∧ fetch_prs "closed" none 1767225600 []
        = fetch_prs "closed" (some (1767225600 - 7 * 86400)) 1767225600 [] :=
  fetch_prs_closed_cutoff sinceW pagesW [prK1] prStale [prK2] [⟨500, []⟩]
    1767225600 [] (by decide) (by decide) (by decide)

/-! ## C4: a non-success page response aborts the fetch -/

/-- C4: if the page loop reaches a response with a non-200 status — the pages
before it all succeeded, were non-empty, and (for the closed state) triggered
no early cutoff — the fetch result is the transport error carrying that
status, whatever was accumulated (`acc`) and whatever the later pages
(`pages₂`) hold: the caller never sees a truncated item list as success. -/
theorem fetch_error_aborts (state s : String) (pages₁ : List PageResponse)
    (r : PageResponse) (pages₂ : List PageResponse) (acc : List PR)
    (h1 : ∀ p ∈ pages₁, p.status = 200 ∧ p.body ≠ [] ∧
      (state = "closed" → ∀ x ∈ p.body, keepClosed s x = true))
    (h2 : r.status ≠ 200) :
    (fetchGo state s (pages₁ ++ r :: pages₂) acc).2 = Except.error r.status := by
  induction pages₁ generalizing acc with
  | nil => simp [fetchGo, h2]
  | cons p rest ih =>
    obtain ⟨hst, hne, hkeep⟩ := h1 p (by simp)
    have hbody : p.body.isEmpty = false := by
      cases hb : p.body
      · exact absurd hb hne
      · simp [hb]
    have ih' := fun acc' => ih acc' (fun q hq => h1 q (by simp [hq]))
    by_cases hstate : state = "closed"
    · subst hstate
      have hall : p.body.all (keepClosed s) = true :=
        List.all_eq_true.2 (hkeep rfl)
      simp [fetchGo, hst, hbody, scanClosedPage_eq, hall, ih']
    · simp [fetchGo, hst, hbody, hstate, ih']

/-- Witness for C4: an open-state fetch whose second page answers 500 yields
the transport error even though the first page already delivered an item. -/
theorem fetch_error_aborts_witness :
    (fetchGo "open" "" ([⟨200, [prK1]⟩] ++ ⟨500, [prK2]⟩ :: [⟨200, []⟩]) []).2
      = Except.error 500 :=
  fetch_error_aborts "open" "" [⟨200, [prK1]⟩] ⟨500, [prK2]⟩ [⟨200, []⟩] []
    (by decide) (by decide)

/-! ## C2: reviewer-set merging -/

/-- The claim under test for C2: every reviewer identity occurs in at most
one entry of the enriched set, and a requested reviewer with no submitted
review appears with the status marker `"no action"`. -/
def claimedC2 (req : RequestedResponse) (rev : ReviewsResponse) : Prop :=
  (∀ e₁ ∈ reviewerSet req rev, ∀ e₂ ∈ reviewerSet req rev,
      identityOf e₁ = identityOf e₂ → e₁ = e₂) ∧
  (∀ u ∈ req.users, (∀ r ∈ rev.reviews, r.user ≠ some u) →
      (u.login ++ " no action") ∈ reviewerSet req rev)

def reqC2 : RequestedResponse := ⟨200, [⟨"alice"⟩, ⟨"bob"⟩], []⟩

def revC2 : ReviewsResponse := ⟨200, [⟨some ⟨"alice"⟩, "APPROVED"⟩]⟩

/-- Counterexample to C2: with alice requested and also the author of an
approved review, and bob requested with no review, the set is
`["alice", "bob", "alice APPROVED"]` — two entries for the identity alice,
and no `"bob no action"` entry. -/
theorem reviewer_identity_dedup_cex : ¬ claimedC2 reqC2 revC2 := by
  unfold claimedC2
  decide

/-- C2 (amended): the set `get_reviewers` builds holds requested reviewers as
their bare login or team name and submitted reviews as `"login STATE"`
strings — nothing else, no `"no action"` marker; it deduplicates equal
strings only, so an identity that is both requested and has reviewed
contributes one entry of each shape. -/
theorem reviewerSet_membership (req : RequestedResponse) (rev : ReviewsResponse)
    (e : String) :
    e ∈ reviewerSet req rev ↔
      (req.status = 200 ∧
        ((∃ u ∈ req.users, u.login = e) ∨ ∃ t ∈ req.teams, t.name = e))
      ∨ (rev.status = 200 ∧
          ∃ r ∈ rev.reviews, ∃ u, r.user = some u ∧ u.login ++ " " ++ r.state = e) := by
  by_cases h1 : req.status = 200 <;> by_cases h2 : rev.status = 200 <;>
    simp [reviewerSet, h1, h2, List.mem_dedup, List.mem_append,
      List.mem_filterMap, Option.map_eq_some']
  exact or_assoc.symm

/-! ## C3: one frozen "now" per run -/

/-- A world with no fetch pages, failing enrichment endpoints, and a clock
frozen at epoch 0. -/
def wBase : World :=
  ⟨[], [], fun _ => ⟨404, [], []⟩, fun _ => ⟨404, []⟩, fun _ => ⟨404, []⟩,
    fun _ => 0, ⟨400, "", ""⟩⟩

/-- The same world, but each successive `datetime.now()` call observes the
clock 31 days later than the previous one. -/
def wAdvancing : World :=
  { wBase with clock := fun k => (k : Int) * 2678400 }

/-- The world `w` with its clock frozen at the sample a run starting at read
index `k` would take first. -/
def frozenAt (w : World) (k : Nat) : World :=
  { w with clock := fun _ => w.clock k }

/-- The claim under test for C3: the classification loop and the open-PR
rendering loop behave as if every `human_age`/`get_days_old` call saw the
single clock value of the run's first read. -/
def claimedC3 (w : World) (k : Nat) (prs : List PR) : Prop :=
  openRowsLoop w k prs = openRowsLoop (frozenAt w k) k prs ∧
  computeOldPrs w k prs = computeOldPrs (frozenAt w k) k prs

def prTwinA : PR :=
  ⟨1, "p1", "url1", "1970-01-01T00:00:00Z", "1970-01-01T00:00:00Z", none⟩

def prTwinB : PR :=
  ⟨2, "p2", "url2", "1970-01-01T00:00:00Z", "1970-01-01T00:00:00Z", none⟩

/-- Counterexample to C3: under an advancing clock, two PRs with identical
creation timestamps classify differently in the same run — the second
`get_days_old` call sees a 31-days-later "now" (so only the second lands in
`old_prs`), and the rendered ages differ (`0d 0h` vs `31d 0h`); a frozen
clock would treat both alike. -/
theorem frozen_now_cex : ¬ claimedC3 wAdvancing 0 [prTwinA, prTwinB] := by
  unfold claimedC3
  decide

/-- C3 (amended): `human_age` and `get_days_old` sample the clock at each
call; only when the clock does not advance between reads does the run match
the frozen-now behaviour, the classification loop then computing exactly the
`>30 days` filter and the rendering loop the per-PR age rows at that one
timestamp. -/
theorem constant_clock_classification (w : World) (k : Nat) (prs : List PR)
    (h : ∀ i, w.clock i = w.clock 0) :
    openRowsLoop w k prs =
      prs.map (fun pr =>
        mdOpenRow pr (human_age (w.clock 0) pr.created_at)
          (get_reviewers (w.requested pr.number) (w.reviews pr.number))) ∧
    computeOldPrs w k prs =
      (prs.filter (fun pr => decide (get_days_old (w.clock 0) pr.created_at > 30))).map
        (fun pr => (pr.created_at, pr.title, pr.html_url,
          get_reviewers (w.requested pr.number) (w.reviews pr.number))) := by
  constructor
  · induction prs generalizing k with
    | nil => simp [openRowsLoop]
    | cons pr rest ih => simp [openRowsLoop, h k, ih (k + 1)]
  · induction prs generalizing k with
    | nil => simp [computeOldPrs]
    | cons pr rest ih =>
      by_cases hold : get_days_old (w.clock 0) pr.created_at > 30
      · simp [computeOldPrs, h k, hold, ih (k + 1)]
      · simp [computeOldPrs, h k, hold, ih (k + 1)]

/-- Witness for C3 (amended) at a constant clock and one PR. -/
theorem constant_clock_classification_witness :
    openRowsLoop wBase 5 [prTwinA] =
      [prTwinA].map (fun pr =>
        mdOpenRow pr (human_age (wBase.clock 0) pr.created_at)
          (get_reviewers (wBase.requested pr.number) (wBase.reviews pr.number))) ∧
    computeOldPrs wBase 5 [prTwinA] =
      ([prTwinA].filter
          (fun pr => decide (get_days_old (wBase.clock 0) pr.created_at > 30))).map
        (fun pr => (pr.created_at, pr.title, pr.html_url,
          get_reviewers (wBase.requested pr.number) (wBase.reviews pr.number))) :=
  constant_clock_classification wBase 5 [prTwinA] (fun _ => rfl)

/-! ## C5: enrichment failures degrade, never abort -/

/-- C5: a failed requested-reviewers lookup contributes no entries (the set
equals the one computed from an empty requested list), a failed reviews
lookup likewise, both failing yields the `"None"` rendering rather than an
error, and a failed comments lookup makes `get_last_comment_date` return
absent data. -/
theorem enrichment_degrades (req : RequestedResponse) (rev : ReviewsResponse)
    (resp : CommentsResponse)
    (h1 : req.status ≠ 200) (h2 : rev.status ≠ 200) (h3 : resp.status ≠ 200) :
    (∀ rev' : ReviewsResponse,
      reviewerSet req rev' = reviewerSet ⟨req.status, [], []⟩ rev') ∧
    (∀ req' : RequestedResponse,
      reviewerSet req' rev = reviewerSet req' ⟨rev.status, []⟩) ∧
    get_reviewers req rev = "None" ∧
    get_last_comment_date resp = none := by
  refine ⟨fun rev' => ?_, fun req' => ?_, ?_, ?_⟩
  · simp [reviewerSet, h1]
  · simp [reviewerSet, h2]
  · simp [get_reviewers, reviewerSet, h1, h2, sortLe]
  · simp [get_last_comment_date, h3]

/-- Witness for C5 at concrete failing responses. -/
theorem enrichment_degrades_witness :
    (∀ rev' : ReviewsResponse,
      reviewerSet ⟨500, [⟨"alice"⟩], [⟨"teamA"⟩]⟩ rev' = reviewerSet ⟨500, [], []⟩ rev') ∧
    (∀ req' : RequestedResponse,
      reviewerSet req' ⟨503, [⟨some ⟨"bob"⟩, "APPROVED"⟩]⟩ = reviewerSet req' ⟨503, []⟩) ∧
    get_reviewers ⟨500, [⟨"alice"⟩], [⟨"teamA"⟩]⟩ ⟨503, [⟨some ⟨"bob"⟩, "APPROVED"⟩]⟩ = "None" ∧
    get_last_comment_date ⟨500, [⟨"2025-01-01T00:00:00Z"⟩]⟩ = none :=
  enrichment_degrades ⟨500, [⟨"alice"⟩], [⟨"teamA"⟩]⟩ ⟨503, [⟨some ⟨"bob"⟩, "APPROVED"⟩]⟩
    ⟨500, [⟨"2025-01-01T00:00:00Z"⟩]⟩ (by decide) (by decide) (by decide)

/-! ## C6: rendering order of open PRs -/

/-- The open-PR render loops index-by-index: row `i` is produced from PR `i`
with the clock sample and reviewer lookups of iteration `i`. -/
theorem openRowsLoop_getElem (w : World) (prs : List PR) : ∀ k i,
    (openRowsLoop w k prs)[i]? = (prs[i]?).map (fun pr =>
      mdOpenRow pr (human_age (w.clock (k + i)) pr.created_at)
        (get_reviewers (w.requested pr.number) (w.reviews pr.number))) := by
  induction prs with
  | nil => intro k i; simp [openRowsLoop]
  | cons pr rest ih =>
    intro k i
    cases i with
    | zero => simp [openRowsLoop]
    | succ n =>
      have hk : k + (n + 1) = (k + 1) + n := by omega
      simp [openRowsLoop, List.getElem?_cons_succ, hk, ih (k + 1) n]

theorem csvRowsLoop_getElem (w : World) (prs : List PR) : ∀ k i,
    (csvRowsLoop w k prs)[i]? = (prs[i]?).map (csvRowFields w (k + i)) := by
  induction prs with
  | nil => intro k i; simp [csvRowsLoop]
  | cons pr rest ih =>
    intro k i
    cases i with
    | zero => simp [csvRowsLoop]
    | succ n =>
      have hk : k + (n + 1) = (k + 1) + n := by omega
      simp [csvRowsLoop, List.getElem?_cons_succ, hk, ih (k + 1) n]

/-- The claim under test for C6: in the rendered order of open PRs, a PR with
strictly more approvals always precedes one with fewer, and equal approval
counts are ordered by ascending creation date. -/
def claimedC6 (revsOf : Nat → ReviewsResponse) (prs : List PR) : Prop :=
  List.Pairwise (fun a b =>
    approvalCount (revsOf b.number).reviews ≤ approvalCount (revsOf a.number).reviews ∧
      (approvalCount (revsOf a.number).reviews = approvalCount (revsOf b.number).reviews →
        strLe a.created_at b.created_at = true))
    (renderOrderOpen prs)

/-- Reviews responses giving PR 2 one approval and every other PR none. -/
def revsOfC6 (n : Nat) : ReviewsResponse :=
  if n = 2 then ⟨200, [⟨some ⟨"carol"⟩, "APPROVED"⟩]⟩ else ⟨200, []⟩

/-- Counterexample to C6: the script renders open PRs in fetch order, so a
zero-approval PR fetched first precedes a one-approval PR fetched second. -/
theorem approval_sort_cex : ¬ claimedC6 revsOfC6 [prTwinA, prTwinB] := by
  unfold claimedC6
  decide

/-- C6 (amended): the CSV rows and the markdown open-PR table render the PRs
in exactly the order fetched — row `i` comes from PR `i` — with no reordering
by approval count or creation date. -/
theorem rows_follow_fetch_order (w : World) (k i : Nat) (prs : List PR) (pr : PR)
    (h : prs[i]? = some pr) :
    (csvRowsLoop w k prs)[i]? = some (csvRowFields w (k + i) pr) ∧
    (openRowsLoop w k prs)[i]? = some
      (mdOpenRow pr (human_age (w.clock (k + i)) pr.created_at)
        (get_reviewers (w.requested pr.number) (w.reviews pr.number))) := by
  rw [csvRowsLoop_getElem, openRowsLoop_getElem, h]
  exact ⟨rfl, rfl⟩

/-- Witness for C6 (amended): the second-fetched PR fills the second row even
under the approvals of the counterexample world. -/
theorem rows_follow_fetch_order_witness :
    (csvRowsLoop wBase 0 [prTwinA, prTwinB])[1]? =
      some (csvRowFields wBase (0 + 1) prTwinB) ∧
    (openRowsLoop wBase 0 [prTwinA, prTwinB])[1]? = some
      (mdOpenRow prTwinB (human_age (wBase.clock (0 + 1)) prTwinB.created_at)
        (get_reviewers (wBase.requested prTwinB.number) (wBase.reviews prTwinB.number))) :=
  rows_follow_fetch_order wBase 0 1 [prTwinA, prTwinB] prTwinB rfl

/-! ## C7: readiness glyphs -/

/-- The claim under test for C7: every open-PR row of the markdown report
carries the readiness glyph of its approval count. -/
def claimedC7 (w : World) (k : Nat) (op cl : List PR) (old : List OldTup)
    (un : Nat) : Prop :=
  ∀ i pr, op[i]? = some pr →
    readinessGlyph (approvalCount (w.reviews pr.number).reviews) ∈
      (((renderLines w k op cl old un)[i + 6]?).getD "").data

def prC7 : PR :=
  ⟨1, "fix bug", "https://example.com/pr/1", "1970-01-01T00:00:00Z",
    "1970-01-01T00:00:00Z", none⟩

/-- Counterexample to C7: a zero-approval PR's rendered row is
`"| [fix bug](https://example.com/pr/1) | 0d 0h | None |"` — it contains no
🔴 (nor any readiness glyph); the script renders only title, age and
reviewers. -/
theorem readiness_glyph_cex : ¬ claimedC7 wBase 0 [prC7] [] [] 0 := by
  intro h
  have hrow := h 0 prC7 rfl
  revert hrow
  decide

/-- C7 (amended): the markdown open-PR row is built from the title, URL, age
and reviewer strings and the fixed frame characters only — the renderer adds
no readiness glyph (any character of the row comes from one of those parts). -/
theorem mdOpenRow_chars_bounded (pr : PR) (age reviewers : String) (c : Char)
    (h : c ∈ (mdOpenRow pr age reviewers).data) :
    c ∈ pr.title.data ∨ c ∈ pr.html_url.data ∨ c ∈ age.data ∨
      c ∈ reviewers.data ∨ c ∈ ("| []()").data := by
  have hframe : ∀ s : String, s.data ⊆ ("| []()").data →
      ∀ x ∈ s.data, x ∈ ("| []()").data := fun s hs x hx => hs hx
  simp only [mdOpenRow, String.data_append, List.mem_append] at h
  rcases h with ((((((((h | h) | h) | h) | h) | h) | h) | h) | h)
  · exact Or.inr (Or.inr (Or.inr (Or.inr (hframe "| [" (by decide) c h))))
  · exact Or.inl h
  · exact Or.inr (Or.inr (Or.inr (Or.inr (hframe "](" (by decide) c h))))
  · exact Or.inr (Or.inl h)
  · exact Or.inr (Or.inr (Or.inr (Or.inr (hframe ") | " (by decide) c h))))
  · exact Or.inr (Or.inr (Or.inl h))
  · exact Or.inr (Or.inr (Or.inr (Or.inr (hframe " | " (by decide) c h))))
  · exact Or.inr (Or.inr (Or.inr (Or.inl h)))
  · exact Or.inr (Or.inr (Or.inr (Or.inr (hframe " |" (by decide) c h))))

/-- Witness for C7 (amended) at the bar character of a concrete row. -/
theorem mdOpenRow_chars_bounded_witness :
    '|' ∈ prC7.title.data ∨ '|' ∈ prC7.html_url.data ∨ '|' ∈ ("0d 0h").data ∨
      '|' ∈ ("None").data ∨ '|' ∈ ("| []()").data :=
  mdOpenRow_chars_bounded prC7 "0d 0h" "None" '|' (by decide)

/-! ## C8: rendering purity -/

/-- The claim under test for C8: the rendered report bytes are a function of
the classified PR sequence and summary alone — any two environments (clock
streams, lookup responses) yield byte-identical output on the same inputs. -/
def claimedC8 (w₁ w₂ : World) (k₁ k₂ : Nat) (op cl : List PR)
    (old : List OldTup) (un : Nat) : Prop :=
  renderBytes (renderLines w₁ k₁ op cl old un) =
    renderBytes (renderLines w₂ k₂ op cl old un)

/-- World `wBase` with every clock sample one year later. -/
def wShifted : World :=
  { wBase with clock := fun _ => 31536000 }

/-- Counterexample to C8: with identical (and here empty) classified inputs
and summary, runs whose render-time clocks differ produce different bytes —
the title line embeds the render-time date (`1970-01-01` vs `1971-01-01`). -/
theorem render_purity_cex : ¬ claimedC8 wBase wShifted 0 0 [] [] [] 0 := by
  unfold claimedC8
  decide

theorem openRowsLoop_congr (w w' : World) (hc : w.clock = w'.clock)
    (hr : w.requested = w'.requested) (hv : w.reviews = w'.reviews) :
    ∀ k prs, openRowsLoop w k prs = openRowsLoop w' k prs := by
  intro k prs
  induction prs generalizing k with
  | nil => simp [openRowsLoop]
  | cons pr rest ih =>
    simp [openRowsLoop, congrFun hc k, congrFun hr pr.number,
      congrFun hv pr.number, ih (k + 1)]

theorem closedRowsLoop_congr (w w' : World) (hc : w.clock = w'.clock)
    (hr : w.requested = w'.requested) (hv : w.reviews = w'.reviews) :
    ∀ k prs, closedRowsLoop w k prs = closedRowsLoop w' k prs := by
  intro k prs
  induction prs generalizing k with
  | nil => simp [closedRowsLoop]
  | cons pr rest ih =>
    simp [closedRowsLoop, congrFun hc k, congrFun hr pr.number,
      congrFun hv pr.number, ih (k + 1)]

theorem oldRowsLoop_congr (w w' : World) (hc : w.clock = w'.clock) :
    ∀ k l, oldRowsLoop w k l = oldRowsLoop w' k l := by
  intro k l
  induction l generalizing k with
  | nil => simp [oldRowsLoop]
  | cons t rest ih => simp [oldRowsLoop, congrFun hc k, ih (k + 1)]

/-- C8 (amended): the report is not a function of the classified sequence and
summary alone — its title line embeds the render-time clock sample, and each
table row embeds that row's own clock sample and reviewer lookups; the output
is determined only once the clock stream and the reviewer-endpoint responses
are fixed too (all other parts of the environment are irrelevant). -/
theorem render_env_determined (w w' : World) (k : Nat) (op cl : List PR)
    (old : List OldTup) (un : Nat) (hc : w.clock = w'.clock)
    (hr : w.requested = w'.requested) (hv : w.reviews = w'.reviews) :
    (renderLines w k op cl old un)[1]? =
      some ("# PR Summary " ++ dateStr (w.clock k)) ∧
    renderLines w k op cl old un = renderLines w' k op cl old un := by
  refine ⟨by simp [renderLines], ?_⟩
  simp [renderLines, congrFun hc k,
    openRowsLoop_congr w w' hc hr hv,
    closedRowsLoop_congr w w' hc hr hv,
    oldRowsLoop_congr w w' hc]

/-- Witness for C8 (amended): a world differing from `wBase` only in the
comments endpoint renders identically, and the title line carries the
render-time clock sample. -/
theorem render_env_determined_witness :
    ((renderLines wBase 0 [prC7] [] [] 0)[1]? =
      some ("# PR Summary " ++ dateStr (wBase.clock 0)) ∧
    renderLines wBase 0 [prC7] [] [] 0 =
      renderLines { wBase with comments := fun _ => ⟨200, [⟨"c"⟩]⟩ } 0 [prC7] [] [] 0) :=
  render_env_determined wBase { wBase with comments := fun _ => ⟨200, [⟨"c"⟩]⟩ }
    0 [prC7] [] [] 0 rfl rfl rfl

/-! ## Helper lemmas about the program trace -/

theorem fetchGo_ok_of_success (state s : String) (pages : List PageResponse)
    (acc : List PR) (h : ∀ r ∈ pages, r.status = 200) :
    ∃ l, (fetchGo state s pages acc).2 = Except.ok l := by
  induction pages generalizing acc with
  | nil => exact ⟨acc, rfl⟩
  | cons r rest ih =>
    have hst : r.status = 200 := h r (by simp)
    by_cases hbody : r.body.isEmpty
    · exact ⟨acc, by simp [fetchGo, hst, hbody]⟩
    · by_cases hstate : state = "closed"
      · subst hstate
        by_cases hsc : (scanClosedPage s r.body acc).2
        · exact ⟨(scanClosedPage s r.body acc).1,
            by simp [fetchGo, hst, hbody, hsc]⟩
        · obtain ⟨l, hl⟩ := ih (scanClosedPage s r.body acc).1
            (fun q hq => h q (by simp [hq]))
          exact ⟨l, by simp [fetchGo, hst, hbody, hsc, hl]⟩
      · obtain ⟨l, hl⟩ := ih (acc ++ r.body) (fun q hq => h q (by simp [hq]))
        exact ⟨l, by simp [fetchGo, hst, hbody, hstate, hl]⟩

theorem netGet_mem_fetchGo (state s : String) (pages : List PageResponse)
    (acc : List PR) :
    Ev.netGet GITHUB_API_URL ∈ (fetchGo state s pages acc).1 := by
  cases pages with
  | nil => simp [fetchGo]
  | cons r rest =>
    by_cases h1 : r.status ≠ 200
    · simp [fetchGo, h1]
    · by_cases h2 : r.body.isEmpty
      · simp [fetchGo, h1, h2]
      · by_cases h3 : state = "closed"
        · subst h3
          by_cases h4 : (scanClosedPage s r.body acc).2 <;>
            simp [fetchGo, h1, h2, h4]
        · simp [fetchGo, h1, h2, h3]

/-- Decomposition of a successful markdown-mode run: the trace is the two
fetch phases, the classification lookups, the rendering lookups, and then
the output branch. -/
theorem mainTrace_md_decomp (cfg : Config) (w : World)
    (hcsv : cfg.csvFlag = false)
    (h5 : ∀ r ∈ w.openPages, r.status = 200)
    (h6 : ∀ r ∈ w.closedPages, r.status = 200) :
    ∃ lo lc : List PR,
      mainTrace cfg w =
        ((Ev.out "Fetching open PRs..." :: (fetchGo "open" "" w.openPages []).1) ++
         (Ev.out "Fetching closed PRs..." ::
            (fetchGo "closed" (strftimeISO (w.clock 0 - 7 * 86400)) w.closedPages []).1) ++
         classifyEvs lo ++ classifyEvs lo ++ classifyEvs lc) ++
        (if cfg.quipFlag then
           publish_to_quip_trace cfg.quipToken cfg.quipDocId w.quip
         else
           (renderLines w (1 + lo.length) lo lc (computeOldPrs w 1 lo)
             (countUnassigned w lo)).map Ev.out) := by
  obtain ⟨lo, hlo⟩ := fetchGo_ok_of_success "open" "" w.openPages [] h5
  obtain ⟨lc, hlc⟩ :=
    fetchGo_ok_of_success "closed" (strftimeISO (w.clock 0 - 7 * 86400))
      w.closedPages [] h6
  refine ⟨lo, lc, ?_⟩
  simp only [mainTrace, fetch_prs_tr]
  simp only [show ("open" = "closed") = False by simp,
    show ("closed" = "closed") = True by simp, if_true, if_false,
    Option.getD_none, Option.getD_some]
  rw [hlo, hlc]
  simp [mdTrace, hcsv, List.append_assoc]

/-! ## C9: missing-credential handling -/

/-- A required credential is missing: `GITHUB_TOKEN` always, the Quip token
when publishing is requested. -/
def missingCred (cfg : Config) : Prop :=
  cfg.githubToken = none ∨ (cfg.quipFlag = true ∧ cfg.quipToken = none)

/-- The claim under test for C9: a run with a missing required credential
performs no network request at all (it exits before any network call). -/
def claimedC9 (cfg : Config) (w : World) : Prop :=
  missingCred cfg → ∀ e ∈ programTrace cfg w, isNet e = false

/-- A configuration with a GitHub token but no Quip token, publishing
requested. -/
def cfgC9 : Config := ⟨some "ghp-token", none, none, false, true⟩

/-- Counterexample to C9: with the Quip token missing and publishing
requested, the run still issues the PR-list GET requests — the missing
credential is only detected at publish time, after the network phase. -/
theorem credential_precheck_cex : ¬ claimedC9 cfgC9 wBase := by
  unfold claimedC9 missingCred
  decide

/-- C9 (amended): a missing `GITHUB_TOKEN` terminates the program
immediately — the trace is exactly the stderr message and exit status 1,
before any network call or output; a missing Quip token with publishing
requested is detected only at publish time: the run first performs the PR
fetches (network requests precede the exit) and then ends with the stderr
message and exit status 1, the report never reaching stdout. -/
theorem credential_exit_behavior (cfg₁ cfg₂ : Config) (w₁ w₂ : World)
    (hg : cfg₁.githubToken = none)
    (h2 : cfg₂.githubToken ≠ none) (h3 : cfg₂.quipFlag = true)
    (h4 : cfg₂.csvFlag = false) (h5 : cfg₂.quipToken = none)
    (h6 : ∀ r ∈ w₂.openPages, r.status = 200)
    (h7 : ∀ r ∈ w₂.closedPages, r.status = 200) :
    programTrace cfg₁ w₁ =
      [Ev.err "Error: GITHUB_TOKEN environment variable is required", Ev.exit 1] ∧
    ∃ pfx, programTrace cfg₂ w₂ =
        pfx ++ [Ev.err "Error: QUIP_TOKEN environment variable is required for Quip publishing",
          Ev.exit 1] ∧
      Ev.netGet GITHUB_API_URL ∈ pfx := by
  constructor
  · simp [programTrace, hg]
  · obtain ⟨g, hg2⟩ := Option.ne_none_iff_exists'.1 h2
    obtain ⟨lo, lc, hdec⟩ := mainTrace_md_decomp cfg₂ w₂ h4 h6 h7
    refine ⟨(Ev.out "Fetching open PRs..." :: (fetchGo "open" "" w₂.openPages []).1) ++
      (Ev.out "Fetching closed PRs..." ::
        (fetchGo "closed" (strftimeISO (w₂.clock 0 - 7 * 86400)) w₂.closedPages []).1) ++
      classifyEvs lo ++ classifyEvs lo ++ classifyEvs lc, ?_, ?_⟩
    · rw [show programTrace cfg₂ w₂ = mainTrace cfg₂ w₂ by simp [programTrace, hg2]]
      rw [hdec]
      simp [h3, h5, publish_to_quip_trace, List.append_assoc]
    · simp [List.mem_append, List.mem_cons, netGet_mem_fetchGo]

/-- Witness for C9 (amended): a token-less configuration exits at once; the
quip-less publishing configuration of the counterexample fetches first. -/
theorem credential_exit_behavior_witness :
    programTrace ⟨none, some "q", none, false, false⟩ wBase =
      [Ev.err "Error: GITHUB_TOKEN environment variable is required", Ev.exit 1] ∧
    ∃ pfx, programTrace cfgC9 wBase =
        pfx ++ [Ev.err "Error: QUIP_TOKEN environment variable is required for Quip publishing",
          Ev.exit 1] ∧
      Ev.netGet GITHUB_API_URL ∈ pfx :=
  credential_exit_behavior ⟨none, some "q", none, false, false⟩ cfgC9 wBase wBase
    rfl (by simp [cfgC9]) rfl rfl rfl (by simp [wBase]) (by simp [wBase])

/-! ## C10: the Quip token is printed to stdout -/

theorem outsOf_publish (t : String) (d : Option String) (r : QuipResp) :
    outsOf (publish_to_quip_trace (some t) d r) = [t] := by
  by_cases h : r.status = 200 ∨ r.status = 201 <;>
    simp [publish_to_quip_trace, outsOf, h]

/-- C10: whenever publishing runs with a Quip token set, the program writes
the token's value itself to stdout immediately before issuing the publish
POST; consequently the stdout stream of the publish step is exactly the
token, so publishes differing only in the token value produce observably
different primary output. -/
theorem quip_token_leak (cfg : Config) (w : World) (t : String)
    (h2 : cfg.githubToken ≠ none) (h3 : cfg.quipFlag = true)
    (h4 : cfg.csvFlag = false) (h5 : cfg.quipToken = some t)
    (h6 : ∀ r ∈ w.openPages, r.status = 200)
    (h7 : ∀ r ∈ w.closedPages, r.status = 200) :
    (∃ pfx rest, programTrace cfg w =
        pfx ++ Ev.out t :: Ev.netPost (quipEndpoint cfg.quipDocId) :: rest) ∧
    (∀ t₁ t₂ : String, ∀ d r₀, t₁ ≠ t₂ →
      outsOf (publish_to_quip_trace (some t₁) d r₀) ≠
        outsOf (publish_to_quip_trace (some t₂) d r₀)) := by
  constructor
  · obtain ⟨g, hg⟩ := Option.ne_none_iff_exists'.1 h2
    obtain ⟨lo, lc, hdec⟩ := mainTrace_md_decomp cfg w h4 h6 h7
    refine ⟨(Ev.out "Fetching open PRs..." :: (fetchGo "open" "" w.openPages []).1) ++
      (Ev.out "Fetching closed PRs..." ::
        (fetchGo "closed" (strftimeISO (w.clock 0 - 7 * 86400)) w.closedPages []).1) ++
      classifyEvs lo ++ classifyEvs lo ++ classifyEvs lc,
      (if w.quip.status = 200 ∨ w.quip.status = 201 then
        [Ev.err ("✓ Published to Quip: " ++ w.quip.link)]
       else
        [Ev.err ("Error publishing to Quip: " ++ toString w.quip.status ++ " " ++ w.quip.text),
         Ev.exit 1]), ?_⟩
    rw [show programTrace cfg w = mainTrace cfg w by simp [programTrace, hg]]
    rw [hdec]
    simp [h3, h5, publish_to_quip_trace, List.append_assoc]
  · intro t₁ t₂ d r₀ hne
    simp [outsOf_publish, hne]

/-- Configuration of the C10 witness run. -/
def cfgC10 : Config := ⟨some "ghp-token", some "quip-secret", none, false, true⟩

/-- Witness for C10: a concrete publishing run writes `"quip-secret"` to
stdout right before its POST, and changing only the token changes the
publish step's stdout. -/
theorem quip_token_leak_witness :
    (∃ pfx rest, programTrace cfgC10 wBase =
        pfx ++ Ev.out "quip-secret" ::
          Ev.netPost (quipEndpoint cfgC10.quipDocId) :: rest) ∧
    (∀ t₁ t₂ : String, ∀ d r₀, t₁ ≠ t₂ →
      outsOf (publish_to_quip_trace (some t₁) d r₀) ≠
        outsOf (publish_to_quip_trace (some t₂) d r₀)) :=
  quip_token_leak cfgC10 wBase "quip-secret" (by simp [cfgC10]) rfl rfl rfl
    (by simp [wBase]) (by simp [wBase])

end TrackOpenPrs
